import Mathlib

/-!
Verification development for the telegram-camera-bot relay server
(`src/index.js`).  The JavaScript source is shallowly embedded: pure
functions become Lean functions, the stateful handlers become explicit
state-passing functions, JS numbers are modelled as `Int`/`Nat` (and a
small NaN-aware type where division by zero matters), and JS strings are
modelled as `String` or `List Char`.
-/

/- ────────────────────────────────────────────────────────────────
   Upload rate limiter (src/index.js lines 53-72)

   const UPLOAD_LIMIT = 10; const UPLOAD_WINDOW = 60000;
   function checkUploadRate(deviceId) {
     const now = Date.now();
     const deviceLimits = uploadLimiter.get(deviceId) || { count: 0, window: now };
     if (now - deviceLimits.window > UPLOAD_WINDOW) {
       deviceLimits.count = 0; deviceLimits.window = now;
     }
     deviceLimits.count++;
     uploadLimiter.set(deviceId, deviceLimits);
     return deviceLimits.count <= UPLOAD_LIMIT;
   }

   The per-device map entry is passed explicitly; `now` is a parameter.
   ──────────────────────────────────────────────────────────────── -/

structure RateEntry where
  count : Nat
  window : Int
deriving DecidableEq, Repr

def UPLOAD_LIMIT : Nat := 10

def UPLOAD_WINDOW : Int := 60000

def checkUploadRate (now : Int) (st : Option RateEntry) : Bool × RateEntry :=
  let deviceLimits := st.getD { count := 0, window := now }
  let deviceLimits :=
    if now - deviceLimits.window > UPLOAD_WINDOW then
      { count := 0, window := now }
    else deviceLimits
  let deviceLimits := { deviceLimits with count := deviceLimits.count + 1 }
  (deviceLimits.count ≤ UPLOAD_LIMIT, deviceLimits)

/-- Fold `checkUploadRate` over a list of call times, collecting results. -/
def runUploadCalls : List Int → Option RateEntry → List Bool × Option RateEntry
  | [], st => ([], st)
  | t :: ts, st =>
    let (b, e) := checkUploadRate t st
    let (bs, st') := runUploadCalls ts (some e)
    (b :: bs, st')

/- ────────────────────────────────────────────────────────────────
   formatFileSize (src/index.js lines 2155-2160)

   function formatFileSize(bytes) {
     if (bytes < 1024) return bytes + ' B';
     if (bytes < 1024 * 1024) return (bytes / 1024).toFixed(1) + ' KB';
     if (bytes < 1024 * 1024 * 1024) return (bytes / (1024 * 1024)).toFixed(1) + ' MB';
     return (bytes / (1024 * 1024 * 1024)).toFixed(2) + ' GB';
   }

   `x.toFixed(k)` is modelled by exact rational rounding to `k` decimal
   digits, rounding half up (the spec and claim only exercise values that
   are exact in binary floating point, where JS agrees with this model).
   ──────────────────────────────────────────────────────────────── -/

/-- `(n / d).toFixed(1)` for natural `n`, `d > 0`: one decimal digit. -/
def toFixed1 (n d : Nat) : String :=
  let v := (n * 10 * 2 + d) / (2 * d)
  toString (v / 10) ++ "." ++ toString (v % 10)

/-- `(n / d).toFixed(2)` for natural `n`, `d > 0`: two decimal digits. -/
def toFixed2 (n d : Nat) : String :=
  let v := (n * 100 * 2 + d) / (2 * d)
  let frac := v % 100
  toString (v / 100) ++ "." ++
    (if frac < 10 then "0" ++ toString frac else toString frac)

def formatFileSize (bytes : Nat) : String :=
  if bytes < 1024 then toString bytes ++ " B"
  else if bytes < 1024 * 1024 then toFixed1 bytes 1024 ++ " KB"
  else if bytes < 1024 * 1024 * 1024 then toFixed1 bytes (1024 * 1024) ++ " MB"
  else toFixed2 bytes (1024 * 1024 * 1024) ++ " GB"

/- ────────────────────────────────────────────────────────────────
   x-auth header parsing (src/index.js lines 1391-1399)

   function getDeviceInfo(authHeader) {
     if (!authHeader) return null;
     const parts = authHeader.split(':');
     if (parts.length >= 2) {
       return { key: parts[0], deviceId: parts[1] };
     }
     return null;
   }

   Header values are `List Char`; an absent header is `none`, and the JS
   falsiness of the empty string is checked explicitly.  `splitOnChar`
   models `String.prototype.split` with a single-character separator.
   ──────────────────────────────────────────────────────────────── -/

def splitOnChar (sep : Char) : List Char → List (List Char)
  | [] => [[]]
  | c :: rest =>
    if c = sep then [] :: splitOnChar sep rest
    else
      match splitOnChar sep rest with
      | [] => [[c]]
      | h :: t => (c :: h) :: t

structure DeviceAuth where
  key : List Char
  deviceId : List Char
deriving DecidableEq, Repr

def getDeviceInfo (authHeader : Option (List Char)) : Option DeviceAuth :=
  match authHeader with
  | none => none
  | some s =>
    if s = [] then none
    else
      let parts := splitOnChar ':' s
      if 2 ≤ parts.length then
        some { key := parts.getD 0 [], deviceId := parts.getD 1 [] }
      else none

/- ────────────────────────────────────────────────────────────────
   Text export chunking (src/index.js lines 1569-1592 and 1608-1631)

   const maxLength = 4000;
   if (contactData.length > maxLength) {
     const chunks = contactData.match(new RegExp(`.{1,${maxLength}}`, 'g')) || [];
     for (let i = 0; i < chunks.length; i++)
       ... `(Part ${i + 1}/${chunks.length})` ... chunks[i] ...
   } else { ... single message without a part label ... }

   The JS regex `.` (without the `s` flag) matches every character except
   the line terminators \n, \r, U+2028, U+2029.  A global match of
   `.{1,4000}` therefore scans left to right, skips line terminators, and
   greedily takes up to 4000 non-terminator characters per chunk.
   `jsChunks` implements exactly that scan.  Both `/text/contacts` and
   `/text/sms` share this logic; they differ only in the fixed title
   text, which is abstracted away in `TextExportMsg`.
   ──────────────────────────────────────────────────────────────── -/

def isLineTerm (c : Char) : Bool :=
  c = '\n' || c = '\r' || c.toNat = 8232 || c.toNat = 8233

def jsChunks : List Char → List (List Char)
  | [] => []
  | c :: rest =>
    if isLineTerm c then jsChunks rest
    else
      ((c :: rest).takeWhile (fun x => !isLineTerm x)).take 4000 ::
        jsChunks ((c :: rest).drop
          (((c :: rest).takeWhile (fun x => !isLineTerm x)).take 4000).length)
termination_by l => l.length
decreasing_by
  · simp
  · rename_i h
    simp only [List.takeWhile_cons, Bool.not_eq_true] at *
    simp [h, List.length_drop]
    omega

/-- One chat message produced by `/text/contacts` or `/text/sms`:
`part = some (i, n)` models the "Part i/N" label of the fenced code
block, `part = none` the single unlabeled message. -/
structure TextExportMsg where
  part : Option (Nat × Nat)
  content : List Char
deriving DecidableEq, Repr

def textExportMessages (body : List Char) : List TextExportMsg :=
  if 4000 < body.length then
    let chunks := jsChunks body
    chunks.enum.map (fun p => { part := some (p.1 + 1, chunks.length), content := p.2 })
  else
    [{ part := none, content := body }]

/- ────────────────────────────────────────────────────────────────
   Sessions (src/index.js line 80: userSessions) and the route-side
   session fan-out (getActiveSessions, lines 1402-1406).
   ──────────────────────────────────────────────────────────────── -/

structure Session where
  key : String
  selectedDevice : Option String
  lastActivity : Int
  lastCommand : Option String
deriving DecidableEq, Repr

def getActiveSessions (key : List Char) (sessions : List (Nat × Session)) :
    List (Nat × Session) :=
  sessions.filter (fun p => p.2.key.toList = key)

/- ── POST /capture (src/index.js lines 1409-1455) ──
   Guard: getDeviceInfo(req.headers["x-auth"]); null ⇒ res.sendStatus(403)
   before getActiveSessions is called and before any bot.sendPhoto. -/

structure CaptureResult where
  status : Nat
  ok : Bool
  warning : Bool
  sessionLookups : Nat
  sends : List Nat
deriving DecidableEq, Repr

def captureRoute (authHeader : Option (List Char)) (sessions : List (Nat × Session)) :
    CaptureResult :=
  match getDeviceInfo authHeader with
  | none => { status := 403, ok := false, warning := false, sessionLookups := 0, sends := [] }
  | some info =>
    let matching := getActiveSessions info.key sessions
    if matching.length = 0 then
      { status := 200, ok := true, warning := true, sessionLookups := 1, sends := [] }
    else
      { status := 200, ok := true, warning := false, sessionLookups := 1,
        sends := matching.map (fun p => p.1) }

/- ── POST /text/contacts and /text/sms (lines 1561-1637) ── -/

structure TextRouteResult where
  status : Nat
  ok : Bool
  sessionLookups : Nat
  sends : List (Nat × TextExportMsg)
deriving DecidableEq, Repr

def textExportRoute (authHeader : Option (List Char)) (sessions : List (Nat × Session))
    (body : List Char) : TextRouteResult :=
  match getDeviceInfo authHeader with
  | none => { status := 403, ok := false, sessionLookups := 0, sends := [] }
  | some info =>
    let matching := getActiveSessions info.key sessions
    { status := 200, ok := true, sessionLookups := 1,
      sends := (matching.map
        (fun p => (textExportMessages body).map (fun m => (p.1, m)))).flatten }

/- ────────────────────────────────────────────────────────────────
   Device directory mapping (src/index.js lines 152-185, getDevices)

   Object.entries(devices).map(([id, data]) => ({
     id,
     model: data.info?.model || 'Unknown',
     lastSeen: data.info?.time || 0,
     online: Date.now() - (data.info?.time || 0) < 5 * 60 * 1000,
     battery: data.info?.battery || -1,
     storage: data.info?.storage || {},
     permissions: data.info?.permissions || {}
   }))

   JS `||` falls back on every falsy value: for strings that includes "",
   for numbers it includes 0; for objects only null/undefined.  `jsOrStr`
   and `jsOrInt` model this.
   ──────────────────────────────────────────────────────────────── -/

structure DeviceInfoRec where
  model : Option String
  time : Option Int
  battery : Option Int
  storage : Option (List (String × Int))
  permissions : Option (List (String × Bool))
deriving DecidableEq, Repr

structure DeviceData where
  info : Option DeviceInfoRec
deriving DecidableEq, Repr

def jsOrStr (v : Option String) (d : String) : String :=
  match v with
  | some s => if s = "" then d else s
  | none => d

def jsOrInt (v : Option Int) (d : Int) : Int :=
  match v with
  | some n => if n = 0 then d else n
  | none => d

structure DeviceSummary where
  id : String
  model : String
  lastSeen : Int
  online : Bool
  battery : Int
  storage : List (String × Int)
  permissions : List (String × Bool)
deriving DecidableEq, Repr

def mkDeviceSummary (now : Int) (id : String) (data : DeviceData) : DeviceSummary :=
  { id := id
    model := jsOrStr (data.info.bind (fun i => i.model)) "Unknown"
    lastSeen := jsOrInt (data.info.bind (fun i => i.time)) 0
    online := now - jsOrInt (data.info.bind (fun i => i.time)) 0 < 5 * 60 * 1000
    battery := jsOrInt (data.info.bind (fun i => i.battery)) (-1)
    storage := (data.info.bind (fun i => i.storage)).getD []
    permissions := (data.info.bind (fun i => i.permissions)).getD [] }

/-- The mapping step of `getDevices` over every child of `devices/<key>`
(the cache layer is orthogonal to the per-record mapping). -/
def getDevicesMap (now : Int) (devices : List (String × DeviceData)) : List DeviceSummary :=
  devices.map (fun p => mkDeviceSummary now p.1 p.2)

/- ────────────────────────────────────────────────────────────────
   Path-token encoding (src/index.js lines 87-89)

   const enc    = s => Buffer.from(s).toString("base64url");
   const dec    = b => Buffer.from(b, "base64url").toString();
   const parent = k => enc(path.dirname(dec(k)));

   Paths are modelled as byte lists (`List Nat`, each byte < 256; Node
   first UTF-8-encodes the JS string, and ASCII paths are their own
   UTF-8).  `encB64`/`decB64` implement Node's unpadded base64url codec;
   `dirname` implements the posix `path.dirname` algorithm byte-wise,
   with 47 = '/' and 46 = '.'.
   ──────────────────────────────────────────────────────────────── -/

def b64char (n : Nat) : Char :=
  if n < 26 then Char.ofNat (65 + n)
  else if n < 52 then Char.ofNat (97 + (n - 26))
  else if n < 62 then Char.ofNat (48 + (n - 52))
  else if n = 62 then '-'
  else '_'

def b64val (c : Char) : Nat :=
  let n := c.toNat
  if 65 ≤ n ∧ n ≤ 90 then n - 65
  else if 97 ≤ n ∧ n ≤ 122 then n - 97 + 26
  else if 48 ≤ n ∧ n ≤ 57 then n - 48 + 52
  else if c = '-' then 62
  else if c = '_' then 63
  else 0

def encB64 : List Nat → List Char
  | [] => []
  | [b1] => [b64char (b1 / 4), b64char (b1 % 4 * 16)]
  | [b1, b2] =>
    [b64char (b1 / 4), b64char (b1 % 4 * 16 + b2 / 16), b64char (b2 % 16 * 4)]
  | b1 :: b2 :: b3 :: rest =>
    b64char (b1 / 4) :: b64char (b1 % 4 * 16 + b2 / 16) ::
      b64char (b2 % 16 * 4 + b3 / 64) :: b64char (b3 % 64) :: encB64 rest

def decB64 : List Char → List Nat
  | [] => []
  | [_] => []
  | [c1, c2] => [b64val c1 * 4 + b64val c2 / 16]
  | [c1, c2, c3] =>
    [b64val c1 * 4 + b64val c2 / 16, b64val c2 % 16 * 16 + b64val c3 / 4]
  | c1 :: c2 :: c3 :: c4 :: rest =>
    (b64val c1 * 4 + b64val c2 / 16) :: (b64val c2 % 16 * 16 + b64val c3 / 4) ::
      (b64val c3 % 4 * 64 + b64val c4) :: decB64 rest

def enc (s : List Nat) : List Char := encB64 s

def dec (b : List Char) : List Nat := decB64 b

/-- Node's posix `path.dirname` scan: walk the `(index, byte)` pairs of
the path from the last index down to index 1; skip trailing slashes,
then return the index of the next slash. -/
def dirScan : List (Nat × Nat) → Bool → Option Nat
  | [], _ => none
  | (i, c) :: rest, matchedSlash =>
    if c = 47 then
      if matchedSlash then dirScan rest matchedSlash else some i
    else dirScan rest false

def dirname (p : List Nat) : List Nat :=
  if p.length = 0 then [46]
  else
    let hasRoot := p.headD 0 = 47
    match dirScan ((p.enum.drop 1).reverse) true with
    | none => if hasRoot then [47] else [46]
    | some e => if hasRoot ∧ e = 1 then [47, 47] else p.take e

def parent (k : List Char) : List Char := enc (dirname (dec k))

/- ────────────────────────────────────────────────────────────────
   JS number model for the /json/permissions summary arithmetic
   (src/index.js lines 1952-2086).

   const totalPermissions = Object.keys(permissions).length;
   const grantedPermissions = Object.values(permissions).filter(Boolean).length;
   const deniedPermissions = totalPermissions - grantedPermissions;
   const permissionPercentage = Math.round((grantedPermissions / totalPermissions) * 100);
   ...
   const progressBar = "█".repeat(Math.floor(permissionPercentage / 10)) +
                       "░".repeat(10 - Math.floor(permissionPercentage / 10));

   `JsNum` carries NaN and the two infinities so that `0 / 0 = NaN`,
   `Math.round(NaN) = NaN` and `"x".repeat(NaN) = ""` (ToIntegerOrInfinity
   maps NaN to 0) are represented; `String.prototype.repeat` throws a
   RangeError (modelled as `none`) on a negative or infinite count.
   Finite values are exact rationals.
   ──────────────────────────────────────────────────────────────── -/

inductive JsNum where
  | nan
  | inf
  | ninf
  | val (q : ℚ)
deriving DecidableEq, Repr

def jsDivNat (a b : Nat) : JsNum :=
  if b = 0 then (if a = 0 then .nan else .inf) else .val ((a : ℚ) / (b : ℚ))

def jsMulNat (x : JsNum) (k : Nat) : JsNum :=
  match x with
  | .nan => .nan
  | .inf => if k = 0 then .nan else .inf
  | .ninf => if k = 0 then .nan else .ninf
  | .val q => .val (q * (k : ℚ))

def jsRound (x : JsNum) : JsNum :=
  match x with
  | .val q => .val ((round q : ℤ) : ℚ)
  | y => y

def jsDivPos (x : JsNum) (k : Nat) : JsNum :=
  match x with
  | .val q => .val (q / (k : ℚ))
  | y => y

def jsFloor (x : JsNum) : JsNum :=
  match x with
  | .val q => .val ((⌊q⌋ : ℤ) : ℚ)
  | y => y

def jsSubFrom (a : Nat) (x : JsNum) : JsNum :=
  match x with
  | .nan => .nan
  | .inf => .ninf
  | .ninf => .inf
  | .val q => .val ((a : ℚ) - q)

def jsRepeat (c : Char) (x : JsNum) : Option (List Char) :=
  match x with
  | .nan => some []
  | .inf => none
  | .ninf => none
  | .val q =>
    let t : Int := if q < 0 then -(⌊-q⌋) else ⌊q⌋
    if t < 0 then none else some (List.replicate t.toNat c)

structure PermSummary where
  total : Nat
  granted : Nat
  denied : Nat
  percentage : JsNum
  bar : Option (List Char)
deriving DecidableEq, Repr

def permissionSummary (permissions : List (String × Bool)) : PermSummary :=
  let total := permissions.length
  let granted := (permissions.filter (fun p => p.2)).length
  let denied := total - granted
  let pct := jsRound (jsMulNat (jsDivNat granted total) 100)
  let fillCount := jsFloor (jsDivPos pct 10)
  let bar :=
    match jsRepeat '█' fillCount with
    | none => none
    | some f =>
      match jsRepeat '░' (jsSubFrom 10 fillCount) with
      | none => none
      | some r => some (f ++ r)
  { total := total, granted := granted, denied := denied, percentage := pct, bar := bar }

structure PermRouteResult where
  status : Nat
  ok : Bool
  summary : Option PermSummary
deriving DecidableEq, Repr

/-- POST /json/permissions: auth guard, then the summary; a RangeError
thrown by `repeat` would be caught by the route's catch and yield the
500 JSON error; otherwise the route responds `200 {ok: true}`. -/
def permissionsRoute (authHeader : Option (List Char))
    (permissions : List (String × Bool)) : PermRouteResult :=
  match getDeviceInfo authHeader with
  | none => { status := 403, ok := false, summary := none }
  | some _ =>
    let s := permissionSummary permissions
    match s.bar with
    | none => { status := 500, ok := false, summary := some s }
    | some _ => { status := 200, ok := true, summary := some s }

/- ────────────────────────────────────────────────────────────────
   Callback-query handler (src/index.js lines 491-1231) and message
   handler (lines 1234-1386), embedded as state machines.

   Message payloads are abstracted to `Screen` tags (the rendered texts
   and keyboards are fixed per branch in the source); callback answers
   keep their exact text and alert flag, because the claims distinguish
   them.  A `dbWrite key device command` effect stands for
   `db.ref(`devices/key/device`).update({command, chat, msg, ts})` (chat,
   msg and ts are determined by the update's context).  The Firebase
   reads a branch performs are inputs: `devices` stands for
   `getDevices(session.key)` and `stored` for the `info` child read by
   the check_permissions branch.
   ──────────────────────────────────────────────────────────────── -/

inductive Screen where
  | loginPrompt
  | systemStatus
  | deviceControls
  | permCenter
  | permCached
  | permScanning
  | batteryOptLoading
  | batteryOptDone
  | noDevices
  | deviceSelect
  | controlCenter
  | mainMenuScreen
  | fileMenuScreen
  | locationMenuScreen
  | dataMenuScreen
  | stealthMenuScreen
  | perfectionMenuScreen
  | cameraMenu (side : String)
  | galleryRootScreen
  | recDurationMenu (side : String)
  | galleryCountPrompt (label : String)
  | sessionExpiredNotice
  | refreshNothing
  | invalidNumber
  | galleryStarted (label : String) (count : Nat)
  | searchingMsg (query : String)
  | loginFirstMsg
  | queryTooShort
  | authChecking
  | authSuccess
  | authFail
  | logoutConfirmScreen
  | goodbyeScreen
deriving DecidableEq, Repr

/-- The callback identifiers on each screen's inline keyboard, in source
order (only the screens whose keyboards the claims mention are needed;
`invalidNumber` is the inline error of the custom-count flow, built at
src/index.js lines 1302-1317 with a Gallery and a Back button). -/
def screenButtons : Screen → List String
  | .invalidNumber => ["gallery_root", "main_menu"]
  | .galleryStarted _ _ =>
    ["refresh_current", "gallery_cancel", "gallery_root", "main_menu"]
  | .deviceControls =>
    ["battery_status", "network_info", "app_list", "restart_services", "main_menu"]
  | .logoutConfirmScreen => ["logout_yes", "device_list"]
  | _ => []

inductive Effect where
  | answer (text : Option String) (alert : Bool)
  | send (s : Screen)
  | edit (s : Screen)
  | dbWrite (key : String) (device : String) (command : String)
  | anim
  | delay
  | deleteMsg
deriving DecidableEq, Repr

structure CbOut where
  effects : List Effect
  session : Option Session
  setAuthWait : Bool
  setCustomWait : Option String
  activeOp : Option String
deriving DecidableEq, Repr

/-- The `info` child of `devices/<key>/<deviceId>` as read by the
check_permissions branch. -/
structure StoredInfo where
  permissions : List (String × Bool)
  batteryOpt : String
deriving DecidableEq, Repr

/-- The direct-command table (src/index.js lines 1045-1088):
identifier ↦ (animation type, answer text). -/
def commandTable : List (String × String × String) := [
  ("capture_front", "photo", "📸 Capturing front photo..."),
  ("capture_back", "photo", "📷 Capturing back photo..."),
  ("loc_now", "location", "📍 Getting current location..."),
  ("loc_start", "location", "🎯 Starting location tracking..."),
  ("loc_stop", "location", "⏹️ Stopping location tracking..."),
  ("dump_contacts", "contacts", "📱 Extracting contacts..."),
  ("dump_sms", "sms", "💬 Extracting SMS messages..."),
  ("device_info", "files", "📊 Getting device information..."),
  ("file_root", "files", "📂 Loading file explorer..."),
  ("file_quick", "files", "⚡ Loading quick access..."),
  ("file_storage", "files", "💾 Calculating storage..."),
  ("battery_status", "default", "🔋 Getting battery status..."),
  ("network_info", "default", "📶 Getting network info..."),
  ("app_list", "default", "📱 Getting app list..."),
  ("restart_services", "default", "🔄 Restarting services..."),
  ("clipboard_monitor", "monitoring", "📋 Accessing clipboard history..."),
  ("app_usage", "monitoring", "📱 Analyzing app usage patterns..."),
  ("system_state", "monitoring", "📊 Reading system state..."),
  ("input_patterns", "monitoring", "⌨️ Analyzing input patterns..."),
  ("monitor_dashboard", "stealth", "📈 Loading monitor dashboard..."),
  ("start_monitoring", "stealth", "🔄 Starting stealth monitoring..."),
  ("stop_monitoring", "stealth", "⏹️ Stopping monitoring..."),
  ("network_intelligence", "perfection", "🌐 Analyzing network intelligence..."),
  ("behavior_analysis", "perfection", "🧠 Processing behavior patterns..."),
  ("sensor_intelligence", "perfection", "📡 Reading sensor intelligence..."),
  ("system_intelligence", "perfection", "⚡ Analyzing system intelligence..."),
  ("perfection_dashboard", "perfection", "📊 Loading perfection dashboard..."),
  ("start_perfection", "perfection", "🚀 Starting enhanced perfection..."),
  ("stop_perfection", "perfection", "⏹️ Stopping perfection service...")]

def commandMap (data : String) : Option (String × String) :=
  (commandTable.find? (fun e => e.1 = data)).map (fun e => e.2)

/-- src/index.js lines 1112-1118. -/
def isPatternCommand (data : String) : Bool :=
  data.startsWith "capture_" || data.startsWith "rec_" ||
  data.startsWith "file_" || data.startsWith "filepage_" ||
  data.startsWith "fileget_" || data.startsWith "gallery_" ||
  data.startsWith "gopics_"

/-- showDeviceSelection (lines 297-347): silently returns when no
session; otherwise renders the no-devices notice or the selection
keyboard built from `getDevices(session.key)`. -/
def showDeviceSelectionFx (session : Option Session) (devices : List DeviceSummary) :
    List Effect :=
  match session with
  | none => []
  | some _ => if devices.length = 0 then [.send .noDevices] else [.send .deviceSelect]

/-- The part of the callback handler below the session check (src lines
858-1222); `s` already passed `!session || !session.key`. -/
def handleCallbackAuthed (data : String) (s : Session) (devices : List DeviceSummary) :
    CbOut :=
  if data.startsWith "select_" then
    { effects := [.answer (some "✅ Device selected") false, .anim, .edit .controlCenter],
      session := some { s with selectedDevice := some (data.drop 7) },
      setAuthWait := false, setCustomWait := none, activeOp := none }
  else if data = "main_menu" then
    { effects := [.answer none false, .edit .mainMenuScreen],
      session := some s, setAuthWait := false, setCustomWait := none, activeOp := none }
  else if data = "file_menu" then
    { effects := [.answer none false, .edit .fileMenuScreen],
      session := some s, setAuthWait := false, setCustomWait := none, activeOp := none }
  else if data = "location_menu" then
    { effects := [.answer none false, .edit .locationMenuScreen],
      session := some s, setAuthWait := false, setCustomWait := none, activeOp := none }
  else if data = "data_menu" then
    { effects := [.answer none false, .edit .dataMenuScreen],
      session := some s, setAuthWait := false, setCustomWait := none, activeOp := none }
  else if data = "stealth_menu" then
    { effects := [.answer none false, .edit .stealthMenuScreen],
      session := some s, setAuthWait := false, setCustomWait := none, activeOp := none }
  else if data = "perfection_menu" then
    { effects := [.answer none false, .edit .perfectionMenuScreen],
      session := some s, setAuthWait := false, setCustomWait := none, activeOp := none }
  else if data = "cam_front" || data = "cam_back" then
    { effects := [.answer none false,
        .edit (.cameraMenu (if data = "cam_front" then "front" else "back"))],
      session := some s, setAuthWait := false, setCustomWait := none, activeOp := none }
  else if data = "gallery_root" then
    { effects := [.answer none false, .edit .galleryRootScreen],
      session := some s, setAuthWait := false, setCustomWait := none, activeOp := none }
  else
    match s.selectedDevice with
    | none =>
      { effects := .answer (some "⚠️ Please select a device first") true ::
          showDeviceSelectionFx (some s) devices,
        session := some s, setAuthWait := false, setCustomWait := none, activeOp := none }
    | some dev =>
      match commandMap data with
      | some ci =>
        { effects := [.answer (some ci.2) false, .anim, .dbWrite s.key dev data],
          session := some s, setAuthWait := false, setCustomWait := none,
          activeOp := some ci.1 }
      | none =>
        if isPatternCommand data then
          { effects := [.answer (some "⏳ Processing...") false, .anim,
              .dbWrite s.key dev data],
            session := some { s with lastCommand := some data },
            setAuthWait := false, setCustomWait := none,
            activeOp := some (if data.startsWith "gallery_" || data.startsWith "gopics_"
              then "gallery" else "files") }
        else if data = "rec_front" || data = "rec_back" then
          { effects := [.answer none false, .edit (.recDurationMenu (data.drop 4))],
            session := some s, setAuthWait := false, setCustomWait := none,
            activeOp := none }
        else if data.startsWith "gallery_custom_" then
          { effects := [.answer none false, .send (.galleryCountPrompt (data.drop 15))],
            session := some s, setAuthWait := false,
            setCustomWait := some (data.drop 15), activeOp := none }
        else if data = "refresh_current" then
          match s.lastCommand with
          | some lc =>
            { effects := [.answer (some "🔄 Refreshing...") false, .dbWrite s.key dev lc],
              session := some s, setAuthWait := false, setCustomWait := none,
              activeOp := none }
          | none =>
            { effects := [.answer (some "🔄 Refreshing...") false, .edit .refreshNothing],
              session := some s, setAuthWait := false, setCustomWait := none,
              activeOp := none }
        else
          { effects := [.answer none false],
            session := some s, setAuthWait := false, setCustomWait := none,
            activeOp := none }

/-- The main callback-query listener (src/index.js lines 491-1231), in
source branch order.  The branches up to switch_device/device_list run
before the session check at lines 847-856.  A second callback-query
listener (lines 2316-2360) also receives every update; it is
`handleLogoutListener` below, and `handleCallbackUpdate` composes the
two. -/
def handleCallback (data : String) (session : Option Session)
    (devices : List DeviceSummary) (stored : StoredInfo) : CbOut :=
  if data = "login_start" then
    { effects := [.answer none false, .send .loginPrompt],
      session := session, setAuthWait := true, setCustomWait := none, activeOp := none }
  else if data = "system_status" then
    match session with
    | none =>
      { effects := [.answer (some "Loading system status...") false],
        session := session, setAuthWait := false, setCustomWait := none, activeOp := none }
    | some _ =>
      { effects := [.answer (some "Loading system status...") false, .send .systemStatus],
        session := session, setAuthWait := false, setCustomWait := none, activeOp := none }
  else if data = "device_menu" then
    { effects := [.answer none false, .edit .deviceControls],
      session := session, setAuthWait := false, setCustomWait := none, activeOp := none }
  else if data = "check_permissions" then
    match session with
    | none =>
      { effects := [.answer (some "Checking permissions...") false,
          .answer (some "⚠️ No device selected") true],
        session := session, setAuthWait := false, setCustomWait := none, activeOp := none }
    | some s =>
      match s.selectedDevice with
      | none =>
        { effects := [.answer (some "Checking permissions...") false,
            .answer (some "⚠️ No device selected") true],
          session := session, setAuthWait := false, setCustomWait := none,
          activeOp := none }
      | some dev =>
        if stored.permissions.length ≠ 0 then
          { effects := [.answer (some "Checking permissions...") false, .edit .permCached],
            session := session, setAuthWait := false, setCustomWait := none,
            activeOp := none }
        else
          { effects := [.answer (some "Checking permissions...") false,
              .edit .permScanning, .dbWrite s.key dev "check_permissions"],
            session := session, setAuthWait := false, setCustomWait := none,
            activeOp := none }
  else if data = "permissions_menu" then
    match session with
    | none =>
      { effects := [.answer (some "Opening permissions menu...") false,
          .answer (some "⚠️ No device selected") true],
        session := session, setAuthWait := false, setCustomWait := none, activeOp := none }
    | some s =>
      match s.selectedDevice with
      | none =>
        { effects := [.answer (some "Opening permissions menu...") false,
            .answer (some "⚠️ No device selected") true],
          session := session, setAuthWait := false, setCustomWait := none,
          activeOp := none }
      | some _ =>
        { effects := [.answer (some "Opening permissions menu...") false,
            .edit .permCenter],
          session := session, setAuthWait := false, setCustomWait := none,
          activeOp := none }
  else if data = "battery_optimization" then
    match session with
    | none =>
      { effects := [.answer (some "🔋 Requesting battery optimization...") false,
          .answer (some "⚠️ No device selected") true],
        session := session, setAuthWait := false, setCustomWait := none, activeOp := none }
    | some s =>
      match s.selectedDevice with
      | none =>
        { effects := [.answer (some "🔋 Requesting battery optimization...") false,
            .answer (some "⚠️ No device selected") true],
          session := session, setAuthWait := false, setCustomWait := none,
          activeOp := none }
      | some dev =>
        { effects := [.answer (some "🔋 Requesting battery optimization...") false,
            .edit .batteryOptLoading,
            .dbWrite s.key dev "request_battery_optimization", .delay,
            .edit .batteryOptDone],
          session := session, setAuthWait := false, setCustomWait := none,
          activeOp := none }
  else if data = "refresh_devices" then
    { effects := .answer (some "Refreshing device list...") false ::
        showDeviceSelectionFx session devices,
      session := session, setAuthWait := false, setCustomWait := none, activeOp := none }
  else if data = "switch_device" || data = "device_list" then
    { effects := .answer none false :: showDeviceSelectionFx session devices,
      session := session, setAuthWait := false, setCustomWait := none, activeOp := none }
  else
    match session with
    | none =>
      { effects := [.answer (some "⚠️ Session expired. Please login again.") true,
          .send .sessionExpiredNotice],
        session := none, setAuthWait := false, setCustomWait := none, activeOp := none }
    | some s =>
      if s.key = "" then
        { effects := [.answer (some "⚠️ Session expired. Please login again.") true,
            .send .sessionExpiredNotice],
          session := some s, setAuthWait := false, setCustomWait := none,
          activeOp := none }
      else
        handleCallbackAuthed data s devices

/-- The second callback-query listener (src/index.js lines 2316-2360):
two independent ifs on logout_confirm and logout_yes, with no session
check; logout_yes deletes the session, answers a "Logged out
successfully" alert and edits the goodbye screen. -/
def handleLogoutListener (data : String) (session : Option Session) :
    List Effect × Option Session :=
  let fx1 : List Effect :=
    if data = "logout_confirm" then
      [.answer none false, .edit .logoutConfirmScreen]
    else []
  if data = "logout_yes" then
    (fx1 ++ [.answer (some "✅ Logged out successfully") true, .edit .goodbyeScreen],
      none)
  else (fx1, session)

/-- One full callback update: the bot emits the update to both
registered listeners in registration order, so the second listener's
effects follow the main listener's and see its session state. -/
def handleCallbackUpdate (data : String) (session : Option Session)
    (devices : List DeviceSummary) (stored : StoredInfo) : CbOut :=
  let o1 := handleCallback data session devices stored
  let o2 := handleLogoutListener data o1.session
  { effects := o1.effects ++ o2.1, session := o2.2,
    setAuthWait := o1.setAuthWait, setCustomWait := o1.setCustomWait,
    activeOp := o1.activeOp }

/- ────────────────────────────────────────────────────────────────
   Text input handler (src/index.js lines 1234-1386).

   The custom gallery count branch (lines 1298-1356):

   const n = parseInt(m.text.trim(), 10);
   if (isNaN(n) || n < 1 || n > 200) { ...inline error, record kept... }
   const session = userSessions.get(chatId);
   if (!session || !session.selectedDevice) return;
   awaitingCustom.delete(chatId);
   const cmd = `gopics_${customState.label}_${n.toString().padStart(3,"0")}`;
   ...sendMessage...; db.update({command: cmd, ...});

   `parseIntJs` models `parseInt(s, 10)`: skip leading whitespace, an
   optional sign, then the longest digit prefix; `none` is NaN.
   ──────────────────────────────────────────────────────────────── -/

def isJsSpace (c : Char) : Bool :=
  c = ' ' || c = '\t' || c = '\n' || c = '\r' ||
  c.toNat = 11 || c.toNat = 12 || c.toNat = 160

def jsTrim (s : List Char) : List Char :=
  ((s.dropWhile isJsSpace).reverse.dropWhile isJsSpace).reverse

def digitsValue (s : List Char) : Option Nat :=
  let ds := s.takeWhile (fun c => c.isDigit)
  if ds = [] then none
  else some (ds.foldl (fun acc c => acc * 10 + (c.toNat - 48)) 0)

def parseIntJs (s : List Char) : Option Int :=
  match s.dropWhile isJsSpace with
  | '-' :: rest => (digitsValue rest).map (fun n => -(n : Int))
  | '+' :: rest => (digitsValue rest).map (fun n => (n : Int))
  | t => (digitsValue t).map (fun n => (n : Int))

/-- `n.toString().padStart(3, "0")` for the counts accepted here. -/
def padStart3 (n : Nat) : String :=
  let s := toString n
  if 3 ≤ s.length then s
  else String.mk (List.replicate (3 - s.length) '0') ++ s

structure AuthWait where
  messageId : Nat
  timestamp : Int
deriving DecidableEq, Repr

structure CustomWait where
  label : String
  promptId : Nat
  device : String
deriving DecidableEq, Repr

structure MsgOut where
  effects : List Effect
  session : Option Session
  authWait : Option AuthWait
  customWait : Option CustomWait
deriving DecidableEq, Repr

/-- The `/search ` section (lines 1358-1385); reached when neither
pending prompt consumed the message (and also after a successful
custom-count reply, which falls through in the source). -/
def handleSearchSection (text : String) (session : Option Session)
    (authWait : Option AuthWait) (customWait : Option CustomWait)
    (acc : List Effect) : MsgOut :=
  if "/search ".toList.isPrefixOf text.toList then
    match session with
    | none =>
      { effects := acc ++ [.send .loginFirstMsg],
        session := session, authWait := authWait, customWait := customWait }
    | some s =>
      match s.selectedDevice with
      | none =>
        { effects := acc ++ [.send .loginFirstMsg],
          session := session, authWait := authWait, customWait := customWait }
      | some dev =>
        let query := ((text.drop 8).toList |> jsTrim).asString
        if query.length < 2 then
          { effects := acc ++ [.send .queryTooShort],
            session := session, authWait := authWait, customWait := customWait }
        else
          { effects := acc ++ [.send (.searchingMsg query),
              .dbWrite s.key dev ("filesearch_" ++ query)],
            session := session, authWait := authWait, customWait := customWait }
  else
    { effects := acc, session := session, authWait := authWait, customWait := customWait }

/-- The message handler (src/index.js lines 1234-1386); `keyExists k`
stands for `db.ref("devices/" + k).once("value").exists()`.  `replyTo`
is `m.reply_to_message?.message_id`. -/
def handleMessage (text : String) (replyTo : Option Nat) (now : Int)
    (session : Option Session) (authWait : Option AuthWait)
    (customWait : Option CustomWait) (keyExists : String → Bool) : MsgOut :=
  match authWait with
  | some aw =>
    if replyTo = some aw.messageId then
      let key := (jsTrim text.toList).asString
      if keyExists key then
        { effects := [.deleteMsg, .send .authChecking, .deleteMsg, .send .authSuccess,
            .delay, .send .deviceSelect],
          session := some
            { key := key, selectedDevice := none,
              lastActivity := now, lastCommand := none },
          authWait := none, customWait := customWait }
      else
        { effects := [.deleteMsg, .send .authChecking, .deleteMsg, .send .authFail],
          session := session, authWait := none, customWait := customWait }
    else
      handleMessageCustom text replyTo session (some aw) customWait
  | none => handleMessageCustom text replyTo session none customWait
where
  handleMessageCustom (text : String) (replyTo : Option Nat)
      (session : Option Session) (authWait : Option AuthWait)
      (customWait : Option CustomWait) : MsgOut :=
    match customWait with
    | some cw =>
      if replyTo = some cw.promptId then
        match parseIntJs (jsTrim text.toList) with
        | none =>
          { effects := [.send .invalidNumber],
            session := session, authWait := authWait, customWait := customWait }
        | some n =>
          if n < 1 || 200 < n then
            { effects := [.send .invalidNumber],
              session := session, authWait := authWait, customWait := customWait }
          else
            match session with
            | none =>
              { effects := [], session := session, authWait := authWait,
                customWait := customWait }
            | some s =>
              match s.selectedDevice with
              | none =>
                { effects := [], session := session, authWait := authWait,
                  customWait := customWait }
              | some dev =>
                handleSearchSection text session authWait none
                  [.send (.galleryStarted cw.label n.toNat),
                   .dbWrite s.key dev ("gopics_" ++ cw.label ++ "_" ++ padStart3 n.toNat)]
      else handleSearchSection text session authWait customWait []
    | none => handleSearchSection text session authWait customWait []

/- ────────────────────────────────────────────────────────────────
   Concrete inputs used by the theorems below.
   ──────────────────────────────────────────────────────────────── -/

/-- The callback identifiers whose branches run before the session check
of src/index.js lines 847-856, in source order (lines 498, 517, 551,
567, 735, 772, 834, 841). -/
def preSessionIds : List String :=
  ["login_start", "system_status", "device_menu", "check_permissions",
   "permissions_menu", "battery_optimization", "refresh_devices",
   "switch_device", "device_list"]

/-- A 4002-character body containing one newline: 4000 `a`s, `\n`, `b`. -/
def exportCounterexampleBody : List Char :=
  List.replicate 4000 'a' ++ '\n' :: ['b']

/-- A device record whose agent reported a battery level of 0 percent. -/
def batteryZeroData : DeviceData :=
  { info := some
      { model := some "Pixel", time := some 1000, battery := some 0,
        storage := none, permissions := none } }

def pathDCIMCamera : List Nat := "/sdcard/DCIM/Camera".toList.map Char.toNat

def pathDCIM : List Nat := "/sdcard/DCIM".toList.map Char.toNat

/- ════════════════════════════════════════════════════════════════
   Theorems
   ════════════════════════════════════════════════════════════════ -/

/- ── Helper lemmas ── -/

theorem runUploadCalls_inWindow (ts : List Int) (c : Nat) (w : Int)
    (h : ∀ t ∈ ts, t - w ≤ 60000) :
    runUploadCalls ts (some { count := c, window := w }) =
      ((List.range ts.length).map (fun i => decide (c + i + 1 ≤ 10)),
        some { count := c + ts.length, window := w }) := by
  induction ts generalizing c with
  | nil => simp [runUploadCalls]
  | cons t ts ih =>
    have ht : ¬ t - w > UPLOAD_WINDOW := by
      have := h t (by simp)
      simp [UPLOAD_WINDOW]
      omega
    have hrest : ∀ t' ∈ ts, t' - w ≤ 60000 := fun t' ht' => h t' (by simp [ht'])
    simp only [runUploadCalls, checkUploadRate, Option.getD_some, if_neg ht,
      ih (c + 1) hrest, UPLOAD_LIMIT, Prod.mk.injEq, Option.some.injEq,
      RateEntry.mk.injEq, List.length_cons, and_true]
    constructor
    · rw [List.range_succ_eq_map, List.map_cons, List.map_map]
      simp only [List.cons.injEq]
      refine ⟨by simp, ?_⟩
      apply List.map_congr_left
      intro i _
      simp only [Function.comp_apply, decide_eq_decide]
      omega
    · omega

theorem splitOnChar_ne_nil (sep : Char) (s : List Char) : splitOnChar sep s ≠ [] := by
  induction s with
  | nil => simp [splitOnChar]
  | cons c rest ih =>
    rw [splitOnChar]
    by_cases h : c = sep
    · simp [h]
    · simp only [if_neg h]
      rcases heq : splitOnChar sep rest with _ | ⟨hd, tl⟩
      · exact absurd heq ih
      · simp

theorem splitOnChar_no_sep (sep : Char) (s : List Char) (h : ∀ c ∈ s, c ≠ sep) :
    splitOnChar sep s = [s] := by
  induction s with
  | nil => rfl
  | cons c rest ih =>
    have hc : c ≠ sep := h c (by simp)
    have hrest := ih (fun x hx => h x (by simp [hx]))
    rw [splitOnChar, if_neg hc, hrest]

theorem splitOnChar_mem_length (sep : Char) (s : List Char) (h : sep ∈ s) :
    2 ≤ (splitOnChar sep s).length := by
  induction s with
  | nil => simp at h
  | cons c rest ih =>
    rw [splitOnChar]
    by_cases hc : c = sep
    · simp only [if_pos hc, List.length_cons]
      have := List.length_pos.mpr (splitOnChar_ne_nil sep rest)
      omega
    · have hmem : sep ∈ rest := by
        rcases List.mem_cons.mp h with h1 | h1
        · exact absurd h1.symm hc
        · exact h1
      have h2 := ih hmem
      simp only [if_neg hc]
      rcases heq : splitOnChar sep rest with _ | ⟨hd, tl⟩
      · exact absurd heq (splitOnChar_ne_nil sep rest)
      · rw [heq] at h2
        simpa using h2

theorem getDeviceInfo_no_colon (h : List Char) (hnc : ∀ c ∈ h, c ≠ ':') :
    getDeviceInfo (some h) = none := by
  rw [getDeviceInfo]
  by_cases he : h = []
  · simp [he]
  · rw [if_neg he]
    have := splitOnChar_no_sep ':' h hnc
    simp [this]

/- ── C3 ── -/

/-- C3: starting with no recorded uploads for a device, the first call
(at time `t1`, which starts the window) and the nine further calls
within 60 seconds of `t1` all return true, the 11th call inside the
window returns false, and a call strictly more than 60000 ms after `t1`
resets the window record to count 1 and returns true. -/
theorem checkUploadRate_window (t1 : Int) (ts : List Int) (tlate : Int)
    (hlen : ts.length = 10) (hin : ∀ t ∈ ts, t - t1 ≤ 60000)
    (hlate : tlate - t1 > 60000) :
    (runUploadCalls (t1 :: ts) none).1 = List.replicate 10 true ++ [false] ∧
    checkUploadRate tlate (runUploadCalls (t1 :: ts) none).2 =
      (true, { count := 1, window := tlate }) := by
  have hfirst : checkUploadRate t1 none = (true, { count := 1, window := t1 }) := by
    simp [checkUploadRate, UPLOAD_WINDOW, UPLOAD_LIMIT]
  have hrun := runUploadCalls_inWindow ts 1 t1 hin
  have hsteps : runUploadCalls (t1 :: ts) none =
      (true :: (List.range ts.length).map (fun i => decide (1 + i + 1 ≤ 10)),
        some { count := 1 + ts.length, window := t1 }) := by
    rw [runUploadCalls]
    simp only [hfirst, hrun]
  constructor
  · have h1 : (runUploadCalls (t1 :: ts) none).1 =
        true :: (List.range 10).map (fun i => decide (1 + i + 1 ≤ 10)) := by
      rw [hsteps, hlen]
    rw [h1]
    decide
  · have h2 : (runUploadCalls (t1 :: ts) none).2 =
        some { count := 11, window := t1 } := by
      rw [hsteps, hlen]
    rw [h2]
    simp [checkUploadRate, UPLOAD_WINDOW, UPLOAD_LIMIT, hlate]

/-- Witness for C3 at `t1 = 0`, ten further calls at time 0 and a late
call at 60001. -/
theorem checkUploadRate_window_witness :
    (runUploadCalls (0 :: List.replicate 10 0) none).1 =
        List.replicate 10 true ++ [false] ∧
      checkUploadRate 60001 (runUploadCalls (0 :: List.replicate 10 0) none).2 =
        (true, { count := 1, window := 60001 }) :=
  checkUploadRate_window 0 (List.replicate 10 0) 60001 (by decide)
    (by intro t ht; simp at ht; omega) (by decide)

/- ── C8 ── -/

/-- C8: formatFileSize renders byte counts below 1024 as "n B", below
1024² as kilobytes with one decimal, below 1024³ as megabytes with one
decimal, and otherwise as gigabytes with two decimals; in particular
500 ↦ "500 B", 2048 ↦ "2.0 KB", 5·1024² ↦ "5.0 MB", 3·1024³ ↦ "3.00 GB",
with the unit switching exactly at each threshold. -/
theorem formatFileSize_spec :
    formatFileSize 500 = "500 B" ∧
    formatFileSize 2048 = "2.0 KB" ∧
    formatFileSize (5 * 1024 * 1024) = "5.0 MB" ∧
    formatFileSize (3 * 1024 * 1024 * 1024) = "3.00 GB" ∧
    formatFileSize 1023 = "1023 B" ∧
    formatFileSize 1024 = "1.0 KB" ∧
    formatFileSize (1024 * 1024 - 1) = "1024.0 KB" ∧
    formatFileSize (1024 * 1024) = "1.0 MB" ∧
    formatFileSize (1024 * 1024 * 1024 - 1) = "1024.0 MB" ∧
    formatFileSize (1024 * 1024 * 1024) = "1.00 GB" ∧
    (∀ n : Nat, n < 1024 → formatFileSize n = toString n ++ " B") ∧
    (∀ n : Nat, 1024 ≤ n → n < 1024 * 1024 →
      formatFileSize n = toFixed1 n 1024 ++ " KB") ∧
    (∀ n : Nat, 1024 * 1024 ≤ n → n < 1024 * 1024 * 1024 →
      formatFileSize n = toFixed1 n (1024 * 1024) ++ " MB") ∧
    (∀ n : Nat, 1024 * 1024 * 1024 ≤ n →
      formatFileSize n = toFixed2 n (1024 * 1024 * 1024) ++ " GB") := by
  refine ⟨rfl, rfl, rfl, rfl, rfl, rfl, rfl, rfl, rfl, rfl, ?_, ?_, ?_, ?_⟩
  · intro n h
    rw [formatFileSize, if_pos h]
  · intro n h1 h2
    rw [formatFileSize, if_neg (by omega), if_pos h2]
  · intro n h1 h2
    rw [formatFileSize, if_neg (by omega), if_neg (by omega), if_pos h2]
  · intro n h1
    rw [formatFileSize, if_neg (by omega), if_neg (by omega), if_neg (by omega)]

/-- Witness for C8: the kilobyte clause applied at 2048 bytes. -/
theorem formatFileSize_spec_witness :
    formatFileSize 2048 = toFixed1 2048 1024 ++ " KB" :=
  formatFileSize_spec.2.2.2.2.2.2.2.2.2.2.2.1 2048 (by omega) (by omega)

/- ── C2 ── -/

/-- C2: for the media/telemetry endpoints (shown here on POST /capture
and on the shared /text/contacts and /text/sms handler), an absent
x-auth header, or one that contains no colon, yields HTTP 403 with no
session lookup and no sends; the header value "abc123:deviceXYZ" parses
to access key "abc123" and device id "deviceXYZ". -/
theorem auth_guard_spec :
    (∀ sessions, captureRoute none sessions =
      { status := 403, ok := false, warning := false, sessionLookups := 0, sends := [] }) ∧
    (∀ h sessions, (∀ c ∈ h, c ≠ ':') → captureRoute (some h) sessions =
      { status := 403, ok := false, warning := false, sessionLookups := 0, sends := [] }) ∧
    (∀ sessions body, textExportRoute none sessions body =
      { status := 403, ok := false, sessionLookups := 0, sends := [] }) ∧
    (∀ h sessions body, (∀ c ∈ h, c ≠ ':') → textExportRoute (some h) sessions body =
      { status := 403, ok := false, sessionLookups := 0, sends := [] }) ∧
    getDeviceInfo (some "abc123:deviceXYZ".toList) =
      some { key := "abc123".toList, deviceId := "deviceXYZ".toList } := by
  refine ⟨?_, ?_, ?_, ?_, ?_⟩
  · intro sessions
    rfl
  · intro h sessions hnc
    rw [captureRoute, getDeviceInfo_no_colon h hnc]
  · intro sessions body
    rfl
  · intro h sessions body hnc
    rw [textExportRoute, getDeviceInfo_no_colon h hnc]
  · decide

/-- Witness for C2: the no-colon guard at the concrete header "abc123"
with one bound session. -/
theorem auth_guard_spec_witness :
    captureRoute (some "abc123".toList)
        [(7, { key := "abc123", selectedDevice := none, lastActivity := 0,
               lastCommand := none })] =
      { status := 403, ok := false, warning := false, sessionLookups := 0,
        sends := [] } :=
  auth_guard_spec.2.1 "abc123".toList _ (by decide)

/- ── C9 ── -/

/-- C9: getDeviceInfo accepts any header containing at least one colon:
"key:" parses to key "key" and empty device id rather than being
rejected, and in "key:dev:extra" every segment after the second is
discarded (key "key", device "dev"). -/
theorem getDeviceInfo_lenient :
    getDeviceInfo (some "key:".toList) =
      some { key := "key".toList, deviceId := [] } ∧
    getDeviceInfo (some "key:dev:extra".toList) =
      some { key := "key".toList, deviceId := "dev".toList } ∧
    (∀ s : List Char, ':' ∈ s → (getDeviceInfo (some s)).isSome = true) := by
  refine ⟨by decide, by decide, ?_⟩
  intro s hs
  have hne : s ≠ [] := by
    intro h
    rw [h] at hs
    simp at hs
  have hlen := splitOnChar_mem_length ':' s hs
  rw [getDeviceInfo, if_neg hne, if_pos hlen]
  rfl

/-- Witness for C9: the colon-bearing header ":" is accepted. -/
theorem getDeviceInfo_lenient_witness :
    (getDeviceInfo (some [':'])).isSome = true :=
  getDeviceInfo_lenient.2.2 [':'] (by decide)

/- ── C6 ── -/

/-- C6 counterexample: for a record whose agent stored battery 0 (a
known value), the summary reports −1, so "battery = −1 exactly when the
stored battery value is unknown" is false. -/
theorem mkDeviceSummary_battery_zero :
    ¬ ((mkDeviceSummary 1000 "dev1" batteryZeroData).battery = -1 ↔
        batteryZeroData.info.bind (fun i => i.battery) = none) := by
  decide

/-- C6 amended: the summary model defaults to "Unknown" when absent, the
online flag is true exactly when now minus the summary's last-seen is
below 5 minutes, and the battery is −1 when the stored value is absent
or 0 (JS `|| -1` treats 0 as falsy); a nonzero stored battery is
reported as-is. -/
theorem mkDeviceSummary_spec (now : Int) (id : String) (d : DeviceData) :
    (d.info.bind (fun i => i.model) = none →
      (mkDeviceSummary now id d).model = "Unknown") ∧
    ((mkDeviceSummary now id d).online = true ↔
      now - (mkDeviceSummary now id d).lastSeen < 5 * 60 * 1000) ∧
    ((d.info.bind (fun i => i.battery) = none ∨
        d.info.bind (fun i => i.battery) = some 0) →
      (mkDeviceSummary now id d).battery = -1) ∧
    (∀ b : Int, d.info.bind (fun i => i.battery) = some b → b ≠ 0 →
      (mkDeviceSummary now id d).battery = b) := by
  refine ⟨?_, ?_, ?_, ?_⟩
  · intro h
    simp [mkDeviceSummary, h, jsOrStr]
  · simp [mkDeviceSummary]
  · intro h
    rcases h with h | h <;> simp [mkDeviceSummary, h, jsOrInt]
  · intro b hb hb0
    simp [mkDeviceSummary, hb, jsOrInt, hb0]

/-- Witness for C6 (amended) at a record with no info child. -/
theorem mkDeviceSummary_spec_witness :
    (mkDeviceSummary 0 "dev" { info := none }).model = "Unknown" ∧
    (mkDeviceSummary 0 "dev" { info := none }).battery = -1 :=
  ⟨(mkDeviceSummary_spec 0 "dev" { info := none }).1 rfl,
   (mkDeviceSummary_spec 0 "dev" { info := none }).2.2.1 (Or.inl rfl)⟩

/- ── C10 ── -/

/-- C10: posting an empty permissions object to /json/permissions does
not throw: the percentage is 0/0 = NaN, both repeat counts degenerate so
the progress bar is empty, and the route responds 200 with ok = true. -/
theorem permissions_empty_nan :
    (permissionsRoute (some "k:d".toList) []).status = 200 ∧
    (permissionsRoute (some "k:d".toList) []).ok = true ∧
    (permissionsRoute (some "k:d".toList) []).summary =
      some
        { total := 0, granted := 0, denied := 0,
          percentage := JsNum.nan, bar := some [] } :=
  ⟨rfl, rfl, rfl⟩

/- ── C1 ── -/

/-- C1 counterexample: the device_menu branch of the main listener runs
before the session check; with no session for the chat the full update
handling (both listeners) still performs its action (the Device
Controls menu edit) and never answers with the session-expired alert. -/
theorem callback_device_menu_unchecked :
    (handleCallbackUpdate "device_menu" none []
        { permissions := [], batteryOpt := "unknown" }).effects =
      [Effect.answer none false, Effect.edit Screen.deviceControls] ∧
    Effect.answer (some "⚠️ Session expired. Please login again.") true ∉
      (handleCallbackUpdate "device_menu" none []
        { permissions := [], batteryOpt := "unknown" }).effects := by
  refine ⟨by decide, by decide⟩

/-- C1 amended: for every callback identifier except the nine handled
before the main listener's session check (login_start, system_status,
device_menu, check_permissions, permissions_menu, battery_optimization,
refresh_devices, switch_device, device_list) and the two logout
identifiers of the second listener (logout_confirm, logout_yes), a chat
without a session gets the session-expired alert and the re-login
prompt and nothing else is performed; logout_confirm and logout_yes,
handled by the second listener with no session check, additionally edit
the logout-confirmation and goodbye screens (and logout_yes answers its
success alert) even though no session exists. -/
theorem callback_session_gate :
    (∀ (data : String) (devices : List DeviceSummary) (stored : StoredInfo),
      data ∉ preSessionIds → data ≠ "logout_confirm" → data ≠ "logout_yes" →
      handleCallbackUpdate data none devices stored =
        { effects := [Effect.answer (some "⚠️ Session expired. Please login again.") true,
            Effect.send Screen.sessionExpiredNotice],
          session := none, setAuthWait := false, setCustomWait := none,
          activeOp := none }) ∧
    (∀ (devices : List DeviceSummary) (stored : StoredInfo),
      handleCallbackUpdate "logout_confirm" none devices stored =
        { effects := [Effect.answer (some "⚠️ Session expired. Please login again.") true,
            Effect.send Screen.sessionExpiredNotice,
            Effect.answer none false, Effect.edit Screen.logoutConfirmScreen],
          session := none, setAuthWait := false, setCustomWait := none,
          activeOp := none }) ∧
    (∀ (devices : List DeviceSummary) (stored : StoredInfo),
      handleCallbackUpdate "logout_yes" none devices stored =
        { effects := [Effect.answer (some "⚠️ Session expired. Please login again.") true,
            Effect.send Screen.sessionExpiredNotice,
            Effect.answer (some "✅ Logged out successfully") true,
            Effect.edit Screen.goodbyeScreen],
          session := none, setAuthWait := false, setCustomWait := none,
          activeOp := none }) := by
  refine ⟨?_, ?_, ?_⟩
  · intro data devices stored h1 h2 h3
    simp only [preSessionIds, List.mem_cons, List.not_mem_nil, or_false,
      not_or] at h1
    obtain ⟨g1, g2, g3, g4, g5, g6, g7, g8, g9⟩ := h1
    simp [handleCallbackUpdate, handleCallback, handleLogoutListener,
      g1, g2, g3, g4, g5, g6, g7, g8, g9, h2, h3]
  · intro devices stored
    simp [handleCallbackUpdate, handleCallback, handleLogoutListener]
  · intro devices stored
    simp [handleCallbackUpdate, handleCallback, handleLogoutListener]

/-- Witness for C1 (amended): the gated clause at "main_menu" and the
logout clauses at concrete inputs. -/
theorem callback_session_gate_witness :
    handleCallbackUpdate "main_menu" none [] { permissions := [], batteryOpt := "" } =
      { effects := [Effect.answer (some "⚠️ Session expired. Please login again.") true,
          Effect.send Screen.sessionExpiredNotice],
        session := none, setAuthWait := false, setCustomWait := none,
        activeOp := none } ∧
    handleCallbackUpdate "logout_confirm" none [] { permissions := [], batteryOpt := "" } =
      { effects := [Effect.answer (some "⚠️ Session expired. Please login again.") true,
          Effect.send Screen.sessionExpiredNotice,
          Effect.answer none false, Effect.edit Screen.logoutConfirmScreen],
        session := none, setAuthWait := false, setCustomWait := none,
        activeOp := none } :=
  ⟨callback_session_gate.1 "main_menu" [] { permissions := [], batteryOpt := "" }
      (by decide) (by decide) (by decide),
   callback_session_gate.2.1 [] { permissions := [], batteryOpt := "" }⟩

/- ── C5 helper lemmas ── -/

theorem take_takeWhile_filter (p : Char → Bool) :
    ∀ (l : List Char) (n : Nat),
      (l.takeWhile p).take n ++
          (l.drop ((l.takeWhile p).take n).length).filter p = l.filter p
  | [], n => by simp
  | c :: rest, n => by
    by_cases hc : p c
    · rw [List.takeWhile_cons, if_pos hc]
      cases n with
      | zero => simp
      | succ m =>
        rw [List.take_succ_cons, List.length_cons, List.drop_succ_cons,
          List.cons_append, List.filter_cons, if_pos hc]
        rw [take_takeWhile_filter p rest m]
    · rw [List.takeWhile_cons, if_neg hc]
      simp

theorem jsChunks_flatten (s : List Char) :
    (jsChunks s).flatten = s.filter (fun c => !isLineTerm c) := by
  induction s using jsChunks.induct with
  | case1 => simp [jsChunks]
  | case2 c rest hterm ih =>
    rw [jsChunks, if_pos hterm, ih, List.filter_cons]
    simp [hterm]
  | case3 c rest hterm ih =>
    rw [jsChunks, if_neg hterm]
    rw [List.flatten_cons, ih]
    exact take_takeWhile_filter (fun c => !isLineTerm c) (c :: rest) 4000

theorem jsChunks_bounds (s : List Char) :
    ∀ ch ∈ jsChunks s, 1 ≤ ch.length ∧ ch.length ≤ 4000 := by
  induction s using jsChunks.induct with
  | case1 => simp [jsChunks]
  | case2 c rest hterm ih =>
    rw [jsChunks, if_pos hterm]
    exact ih
  | case3 c rest hterm ih =>
    rw [jsChunks, if_neg hterm]
    intro ch hch
    rcases List.mem_cons.mp hch with h | h
    · subst h
      constructor
      · rw [List.takeWhile_cons, if_pos (by simpa using hterm)]
        simp
      · simp [List.length_take]
    · exact ih ch h

theorem textExportMessages_content (body : List Char) (h : 4000 < body.length) :
    (textExportMessages body).map (fun m => m.content) = jsChunks body := by
  simp only [textExportMessages, if_pos h, List.map_map]
  have : ((fun m : TextExportMsg => m.content) ∘
      (fun p : Nat × List Char =>
        ({ part := some (p.1 + 1, (jsChunks body).length),
           content := p.2 } : TextExportMsg))) = Prod.snd := rfl
  rw [this, List.enum_map_snd]

theorem map_fst_fun_zip {α γ : Type} (f : Nat → γ) :
    ∀ (a : List Nat) (b : List α), a.length = b.length →
      (a.zip b).map (fun p => f p.1) = a.map f
  | [], [], _ => rfl
  | x :: xs, y :: ys, h => by
    rw [List.zip_cons_cons, List.map_cons, List.map_cons,
      map_fst_fun_zip f xs ys (by simpa using h)]
  | [], _ :: _, h => by simp at h
  | _ :: _, [], h => by simp at h

theorem textExportMessages_parts (body : List Char) (h : 4000 < body.length) :
    (textExportMessages body).map (fun m => m.part) =
      (List.range (textExportMessages body).length).map
        (fun i => some (i + 1, (textExportMessages body).length)) := by
  have hlen : (textExportMessages body).length = (jsChunks body).length := by
    simp [textExportMessages, if_pos h]
  rw [hlen]
  simp only [textExportMessages, if_pos h, List.map_map]
  have : ((fun m : TextExportMsg => m.part) ∘
      (fun p : Nat × List Char =>
        ({ part := some (p.1 + 1, (jsChunks body).length),
           content := p.2 } : TextExportMsg))) =
      fun p : Nat × List Char => some (p.1 + 1, (jsChunks body).length) := rfl
  rw [this, List.enum_eq_zip_range]
  exact map_fst_fun_zip (fun i => some (i + 1, (jsChunks body).length))
    (List.range (jsChunks body).length) (jsChunks body) (List.length_range _)

theorem filter_replicate_pos (p : Char → Bool) (a : Char) (h : p a = true) (k : Nat) :
    (List.replicate k a).filter p = List.replicate k a := by
  induction k with
  | zero => rfl
  | succ m ih => rw [List.replicate_succ, List.filter_cons, if_pos h, ih]

theorem exportBody_length : exportCounterexampleBody.length = 4002 := by
  rw [exportCounterexampleBody, List.length_append, List.length_replicate]
  rfl

theorem exportBody_filter_length :
    (exportCounterexampleBody.filter (fun c => !isLineTerm c)).length = 4001 := by
  rw [exportCounterexampleBody, List.filter_append,
    filter_replicate_pos _ 'a' (by decide) 4000,
    List.length_append, List.length_replicate]
  rfl

/- ── C5 ── -/

/-- C5 counterexample: a 4002-character body holding a newline is not
covered by its chunks: the JS regex `.` skips line terminators, so the
newline is dropped and the concatenated chunks differ from the body. -/
theorem textExport_chunks_drop_newline :
    4000 < exportCounterexampleBody.length ∧
    ((textExportMessages exportCounterexampleBody).map
        (fun m => m.content)).flatten ≠ exportCounterexampleBody := by
  have hlen := exportBody_length
  refine ⟨by omega, ?_⟩
  rw [textExportMessages_content exportCounterexampleBody (by omega),
    jsChunks_flatten]
  intro heq
  have hlen2 := congrArg List.length heq
  rw [hlen, exportBody_filter_length] at hlen2
  omega

/-- C5 amended: when the body exceeds 4000 characters, every chunk has
between 1 and 4000 characters, the chunks concatenate to the body with
its line-terminator characters removed (the JS regex `.` does not match
them), and message i of N carries the part label (i, N); a body of at
most 4000 characters is sent as a single unlabeled message. -/
theorem textExportMessages_spec (body : List Char) :
    (4000 < body.length →
      ((textExportMessages body).map (fun m => m.content)).flatten =
          body.filter (fun c => !isLineTerm c) ∧
      (∀ m ∈ textExportMessages body,
        1 ≤ m.content.length ∧ m.content.length ≤ 4000) ∧
      (textExportMessages body).map (fun m => m.part) =
        (List.range (textExportMessages body).length).map
          (fun i => some (i + 1, (textExportMessages body).length))) ∧
    (body.length ≤ 4000 →
      textExportMessages body = [{ part := none, content := body }]) := by
  constructor
  · intro h
    refine ⟨?_, ?_, textExportMessages_parts body h⟩
    · rw [textExportMessages_content body h, jsChunks_flatten]
    · intro m hm
      have hcontent : m.content ∈ jsChunks body := by
        rw [← textExportMessages_content body h]
        exact List.mem_map_of_mem (fun m => m.content) hm
      exact jsChunks_bounds body m.content hcontent
  · intro h
    rw [textExportMessages, if_neg (by omega)]

/-- Witness for C5 (amended): the single-message branch at a small body
and the chunking branch at the 4002-character body. -/
theorem textExportMessages_spec_witness :
    textExportMessages "hi".toList =
        [{ part := none, content := "hi".toList }] ∧
    ((textExportMessages exportCounterexampleBody).map
        (fun m => m.content)).flatten =
      exportCounterexampleBody.filter (fun c => !isLineTerm c) :=
  ⟨(textExportMessages_spec "hi".toList).2 (by decide),
   ((textExportMessages_spec exportCounterexampleBody).1
      (by rw [exportBody_length]; omega)).1⟩

/- ── C4 helper lemmas ── -/

theorem jsTrim_head (c : Char) (r : List Char) (hc : isJsSpace c = false) :
    ∃ r', jsTrim (c :: r) = c :: r' := by
  rw [jsTrim, List.dropWhile_cons]
  simp only [hc, Bool.false_eq_true, if_false, List.reverse_cons,
    List.dropWhile_append]
  by_cases he : (r.reverse.dropWhile isJsSpace).isEmpty
  · rw [if_pos he]
    refine ⟨[], ?_⟩
    rw [List.dropWhile_cons]
    simp [hc]
  · rw [if_neg he]
    exact ⟨(List.dropWhile isJsSpace r.reverse).reverse,
      by rw [List.reverse_append]; simp⟩

theorem parseIntJs_search (text : String)
    (h : "/search ".toList.isPrefixOf text.toList = true) :
    parseIntJs (jsTrim text.toList) = none := by
  have hlist : "/search ".toList = '/' :: "search ".toList := rfl
  rcases htl : text.toList with _ | ⟨c, tl⟩
  · rw [htl, hlist] at h
    simp [List.isPrefixOf] at h
  · rw [htl, hlist] at h
    simp only [List.isPrefixOf, Bool.and_eq_true, beq_iff_eq] at h
    obtain ⟨hc, -⟩ := h
    subst hc
    obtain ⟨r', hr⟩ := jsTrim_head '/' tl (by decide)
    rw [hr]
    have hdw : ('/' :: r').dropWhile isJsSpace = '/' :: r' := by
      rw [List.dropWhile_cons]
      simp [isJsSpace]
    simp [parseIntJs, hdw, digitsValue, List.takeWhile_cons]

/- ── C4 ── -/

/-- C4: a reply to a pending custom-count prompt whose text does not
parse (via parseInt, radix 10) to an integer in [1, 200] produces the
inline error message carrying the Gallery and Back buttons and keeps the
pending record; a reply parsing to n in [1, 200] (with a session and a
selected device) clears the record and queues the command
`gopics_<label>_<n zero-padded to 3 digits>`; concretely "0", "201" and
"abc" are rejected with the record kept, and "50" queues
"gopics_camera_050" and clears the record. -/
theorem customCount_spec :
    (∀ (text : String) (session : Option Session) (now : Int)
        (cw : CustomWait) (ke : String → Bool),
      (∀ n : Int, parseIntJs (jsTrim text.toList) = some n → n < 1 ∨ 200 < n) →
      handleMessage text (some cw.promptId) now session none (some cw) ke =
        { effects := [Effect.send Screen.invalidNumber], session := session,
          authWait := none, customWait := some cw }) ∧
    screenButtons Screen.invalidNumber = ["gallery_root", "main_menu"] ∧
    (∀ (text : String) (s : Session) (dev : String) (now : Int)
        (cw : CustomWait) (ke : String → Bool) (n : Int),
      parseIntJs (jsTrim text.toList) = some n → 1 ≤ n → n ≤ 200 →
      s.selectedDevice = some dev →
      handleMessage text (some cw.promptId) now (some s) none (some cw) ke =
        { effects := [Effect.send (Screen.galleryStarted cw.label n.toNat),
            Effect.dbWrite s.key dev
              ("gopics_" ++ cw.label ++ "_" ++ padStart3 n.toNat)],
          session := some s, authWait := none, customWait := none }) ∧
    (∀ text ∈ ["0", "201", "abc"],
      handleMessage text (some 42) 0
          (some
            { key := "KEY", selectedDevice := some "deviceA",
              lastActivity := 0, lastCommand := none })
          none (some { label := "camera", promptId := 42, device := "deviceA" })
          (fun _ => true) =
        { effects := [Effect.send Screen.invalidNumber],
          session := some
            { key := "KEY", selectedDevice := some "deviceA",
              lastActivity := 0, lastCommand := none },
          authWait := none,
          customWait := some
            { label := "camera", promptId := 42,
              device := "deviceA" } }) ∧
    handleMessage "50" (some 42) 0
        (some
          { key := "KEY", selectedDevice := some "deviceA",
            lastActivity := 0, lastCommand := none })
        none (some { label := "camera", promptId := 42, device := "deviceA" })
        (fun _ => true) =
      { effects := [Effect.send (Screen.galleryStarted "camera" 50),
          Effect.dbWrite "KEY" "deviceA" "gopics_camera_050"],
        session := some
          { key := "KEY", selectedDevice := some "deviceA",
            lastActivity := 0, lastCommand := none },
        authWait := none, customWait := none } := by
  refine ⟨?_, rfl, ?_, by decide, by decide⟩
  · intro text session now cw ke hbad
    rw [handleMessage]
    rcases heq : parseIntJs (jsTrim text.toList) with _ | n
    · have heq' : parseIntJs (jsTrim text.data) = none := heq
      simp [handleMessage.handleMessageCustom, heq']
    · have heq' : parseIntJs (jsTrim text.data) = some n := heq
      have hrange := hbad n heq
      simp [handleMessage.handleMessageCustom, heq']
      intro hc1 hc2
      exfalso
      omega
  · intro text s dev now cw ke n hn h1 h200 hdev
    have hs : ("/search ".toList.isPrefixOf text.toList) = false := by
      cases hps : ("/search ".toList.isPrefixOf text.toList)
      · rfl
      · rw [parseIntJs_search text hps] at hn
        exact Option.noConfusion hn
    have hcond : (decide (n < 1) || decide (200 < n)) = false := by
      simp only [Bool.or_eq_false_iff, decide_eq_false_iff_not, not_lt]
      omega
    rw [handleMessage]
    simp only [handleMessage.handleMessageCustom, hn, eq_self_iff_true, if_true]
    simp only [hcond, Bool.false_eq_true, if_false, hdev, handleSearchSection,
      hs, List.nil_append]

/-- Witness for C4: the general rejection clause applied at input "0"
and the general acceptance clause applied at input "50". -/
theorem customCount_spec_witness :
    handleMessage "0" (some 9) 0 none none
        (some { label := "downloads", promptId := 9, device := "devB" })
        (fun _ => true) =
      { effects := [Effect.send Screen.invalidNumber], session := none,
        authWait := none,
        customWait := some
          { label := "downloads", promptId := 9,
            device := "devB" } } ∧
    handleMessage "17" (some 9) 0
        (some
          { key := "K2", selectedDevice := some "devB",
            lastActivity := 5, lastCommand := none })
        none (some { label := "downloads", promptId := 9, device := "devB" })
        (fun _ => true) =
      { effects := [Effect.send (Screen.galleryStarted "downloads" 17),
          Effect.dbWrite "K2" "devB" "gopics_downloads_017"],
        session := some
          { key := "K2", selectedDevice := some "devB",
            lastActivity := 5, lastCommand := none },
        authWait := none, customWait := none } := by
  constructor
  · exact customCount_spec.1 "0" none 0
      { label := "downloads", promptId := 9, device := "devB" } (fun _ => true)
      (by
        intro n h
        have h0 : parseIntJs (jsTrim "0".toList) = some 0 := by decide
        rw [h0] at h
        injection h with h'
        subst h'
        exact Or.inl (by omega))
  · exact customCount_spec.2.2.1 "17"
      { key := "K2", selectedDevice := some "devB",
        lastActivity := 5, lastCommand := none } "devB" 0
      { label := "downloads", promptId := 9, device := "devB" } (fun _ => true)
      17 (by decide) (by omega) (by omega) rfl

/- ── C7 helper lemmas ── -/

theorem b64val_b64char : ∀ n < 64, b64val (b64char n) = n := by decide

theorem decB64_encB64 : ∀ (bs : List Nat), (∀ b ∈ bs, b < 256) →
    decB64 (encB64 bs) = bs
  | [], _ => rfl
  | [b1], h => by
    have hb1 : b1 < 256 := h b1 (by simp)
    simp only [encB64, decB64]
    rw [b64val_b64char _ (by omega), b64val_b64char _ (by omega)]
    simp only [List.cons.injEq, and_true]
    omega
  | [b1, b2], h => by
    have hb1 : b1 < 256 := h b1 (by simp)
    have hb2 : b2 < 256 := h b2 (by simp)
    simp only [encB64, decB64]
    rw [b64val_b64char _ (by omega), b64val_b64char _ (by omega),
      b64val_b64char _ (by omega)]
    simp only [List.cons.injEq, and_true]
    constructor
    · omega
    · omega
  | b1 :: b2 :: b3 :: rest, h => by
    have hb1 : b1 < 256 := h b1 (by simp)
    have hb2 : b2 < 256 := h b2 (by simp)
    have hb3 : b3 < 256 := h b3 (by simp)
    have ih := decB64_encB64 rest (fun b hb => h b (by simp [hb]))
    simp only [encB64, decB64]
    rw [b64val_b64char _ (by omega), b64val_b64char _ (by omega),
      b64val_b64char _ (by omega), b64val_b64char _ (by omega), ih]
    simp only [List.cons.injEq, and_true]
    refine ⟨by omega, by omega, by omega⟩

theorem dirname_bytes (p : List Nat) (h : ∀ b ∈ p, b < 256) :
    ∀ b ∈ dirname p, b < 256 := by
  intro b hb
  simp only [dirname] at hb
  split at hb
  · simp at hb
    omega
  · split at hb
    · split at hb <;> (simp at hb; omega)
    · split at hb
      · simp at hb
        omega
      · exact h b (List.take_subset _ p hb)

/- ── C7 ── -/

/-- C7: for every byte-level directory path, encoding it to a base64url
token, decoding, taking the posix parent directory, and re-encoding (the
`parent` helper) yields a token that decodes to the parent path; in
particular starting from /sdcard/DCIM/Camera the round trip decodes back
to /sdcard/DCIM. -/
theorem parent_token_spec :
    (∀ p : List Nat, (∀ b ∈ p, b < 256) →
      dec (parent (enc p)) = dirname p) ∧
    dec (parent (enc pathDCIMCamera)) = pathDCIM := by
  have hgen : ∀ p : List Nat, (∀ b ∈ p, b < 256) →
      dec (parent (enc p)) = dirname p := by
    intro p hp
    simp only [parent, enc, dec, decB64_encB64 p hp]
    exact decB64_encB64 (dirname p) (dirname_bytes p hp)
  refine ⟨hgen, ?_⟩
  rw [hgen pathDCIMCamera (by decide)]
  decide

/-- Witness for C7 at the concrete path /a/b. -/
theorem parent_token_spec_witness :
    dec (parent (enc ("/a/b".toList.map Char.toNat))) =
      dirname ("/a/b".toList.map Char.toNat) :=
  parent_token_spec.1 ("/a/b".toList.map Char.toNat) (by decide)
